import Mathlib

set_option maxHeartbeats 1000000

/-! Shallow embedding of the RTX texture streaming manager
    (`src/dxvk/rtx_render/rtx_texturemanager.cpp`), together with proofs about
    its record state machine, scheduling, worker, and memory-pressure logic.
    Collaborators that are outside the excerpt (`rtx_texture.h` record helpers,
    `TextureUtils`, `RtxIo`) are modelled from the specification and carry a
    `Modelled from the spec` note. -/

/-- The `ManagedTexture::State` enum (`rtx_texture.h`), as used throughout
`rtx_texturemanager.cpp`. -/
inductive TexState
  | kHostMem
  | kQueuedForUpload
  | kVidMem
  | kFailed
deriving DecidableEq, Repr

/-- The `ManagedTexture` record (`rtx_texture.h`).  Host pixel buffers are
modelled by presence flags; `deviceMipBoundary = some k` records that mips
`[k, mipLevels)` have been promoted to device memory; `completionSyncptComplete`
models `RtxIo::isComplete` on the record's completion syncpoint. -/
structure ManagedTexture where
  state : TexState
  futureImageDescMipLevels : Nat
  numLargeMips : Nat
  linearImageDataSmallMips : Bool
  linearImageDataLargeMips : Bool
  frameQueuedForUpload : Nat
  canDemote : Bool
  completionSyncptComplete : Bool
  deviceMipBoundary : Option Nat
  hash : Nat
deriving DecidableEq, Repr

/-- Configuration snapshot (`RtxOptions`) consumed by the texture manager,
plus the RTX IO feature gate (`WITH_RTXIO` and `RtxIo::enabled()`). -/
structure RtxConfig where
  enableAsyncTextureUpload : Bool
  asyncTextureUploadPreloadMips : Int
  alwaysWaitForAsyncTextures : Bool
  assetEstimatedSizeGB : Int
  rtxIoEnabled : Bool
deriving DecidableEq, Repr

/-- Outcomes of the external loader/promoter calls made during one operation
(the out-of-scope `TextureUtils` collaborators may throw a `DxvkError`). -/
structure UploadOutcome where
  loadOk : Bool
  promoteOk : Bool
deriving DecidableEq, Repr

/-- Result of an external loader/promoter call: `ok` carries the updated
record; `err` carries the record as mutated so far when a `DxvkError` is
thrown. -/
inductive TexResult
  | ok (t : ManagedTexture)
  | err (t : ManagedTexture)
deriving DecidableEq, Repr

/-- Modelled from the spec: `TextureUtils::loadTexture(..., MipsToLoad::LowMips)`
(outside the excerpt) loads the fine ("large") mip pixel data into host
memory, or reports a structured error. -/
def loadTextureLowMips (ok : Bool) (t : ManagedTexture) : TexResult :=
  if ok then .ok { t with linearImageDataLargeMips := true } else .err t

/-- Modelled from the spec: `TextureUtils::promoteHostToVid` copies host-resident
pixel data to device memory for every mip at or above `largestMipToPreload`;
promoting the whole chain (`largestMipToPreload = 0`, the default argument)
makes the record device resident (`kVidMem`, terminal success); a structured
error is reported on failure. -/
def promoteHostToVid (ok : Bool) (t : ManagedTexture) (largestMipToPreload : Int) : TexResult :=
  if ok then
    .ok { t with deviceMipBoundary := some largestMipToPreload.toNat,
                 state := if largestMipToPreload = 0 then TexState.kVidMem else t.state }
  else .err t

/-- Modelled from the spec: `TextureRef::finalizePendingPromotion` performs the
hand-off of the device-resident resource to the consumer; it is meaningful (and
succeeds, idempotently) exactly when the record has reached `kVidMem`. -/
def finalizePendingPromotion (t : ManagedTexture) : Bool :=
  t.state == TexState.kVidMem

/-- Modelled from the spec: `ManagedTexture::demote` releases device-local
residency; an explicit demote returns a `kVidMem` record to `kHostMem`, and
leaves the state of a record in any other state unchanged. -/
def demote (t : ManagedTexture) : ManagedTexture :=
  if t.state = TexState.kVidMem then
    { t with state := TexState.kHostMem, deviceMipBoundary := none }
  else { t with deviceMipBoundary := none }

/-- Modelled from the spec: the dxvk `clamp` helper used by `calcPreloadMips`
("a configured async preload count clamped to `[0, mipLevels]`"). -/
def clamp (n lo hi : Int) : Int :=
  if n < lo then lo else if n > hi then hi else n

/-- `RtxTextureManager::calcPreloadMips` (rtx_texturemanager.cpp:147-154). -/
def calcPreloadMips (cfg : RtxConfig) (mipLevels : Int) : Int :=
  if cfg.enableAsyncTextureUpload then
    clamp cfg.asyncTextureUploadPreloadMips 0 mipLevels
  else
    mipLevels

/-- The `preloadMips` value computed at rtx_texturemanager.cpp:78. -/
def schedulePreloadMips (cfg : RtxConfig) (t : ManagedTexture) (allowAsync : Bool) : Int :=
  if allowAsync then calcPreloadMips cfg (t.futureImageDescMipLevels : Int)
  else (t.futureImageDescMipLevels : Int)

/-- The `preloadMips` value after the RTX IO adjustment at
rtx_texturemanager.cpp:80-83. -/
def scheduleEffectivePreloadMips (cfg : RtxConfig) (t : ManagedTexture) (allowAsync : Bool) : Int :=
  if cfg.rtxIoEnabled then
    if t.state ≠ TexState.kVidMem then schedulePreloadMips cfg t allowAsync else 0
  else schedulePreloadMips cfg t allowAsync

/-- The body of the `try` block at rtx_texturemanager.cpp:86-95: load the fine
mips into host memory when the preload boundary reaches into them and they are
absent, then promote host data down to mip `largestMipToPreload`.  (Here
`largestMipToPreload` always lies in `[0, mipLevels]`, so the `uint32_t`
conversion in the source never wraps and plain integer subtraction is exact.) -/
def preloadStep (out : UploadOutcome) (t : ManagedTexture) (largestMipToPreload : Int) : TexResult :=
  match (if largestMipToPreload < (t.numLargeMips : Int) ∧ t.linearImageDataLargeMips = false
         then loadTextureLowMips out.loadOk t
         else TexResult.ok t) with
  | .err tf => .err tf
  | .ok t1 => promoteHostToVid out.promoteOk t1 largestMipToPreload

/-- `RtxTextureManager::scheduleTextureUpload` (rtx_texturemanager.cpp:50-120)
restricted to its effect on the managed texture record; the returned flag says
whether the record was pushed onto the pending queue (the `asyncUpload` branch
at lines 104-113, which also stamps `frameQueuedForUpload`). -/
def scheduleRecordCore (cfg : RtxConfig) (out : UploadOutcome) (allowAsync : Bool)
    (frame : Nat) (t : ManagedTexture) : ManagedTexture × Bool :=
  if t.state = TexState.kVidMem ∧ finalizePendingPromotion t = true then (t, false)
  else if t.state = TexState.kQueuedForUpload then
    if cfg.rtxIoEnabled ∧ t.completionSyncptComplete then
      ({ t with state := TexState.kVidMem }, false)
    else (t, false)
  else
    match (if scheduleEffectivePreloadMips cfg t allowAsync ≠ 0 then
             preloadStep out t
               ((t.futureImageDescMipLevels : Int) - scheduleEffectivePreloadMips cfg t allowAsync)
           else TexResult.ok t) with
    | .err tf => ({ tf with state := TexState.kFailed }, false)
    | .ok t1 =>
      if scheduleEffectivePreloadMips cfg t allowAsync < (t.futureImageDescMipLevels : Int) then
        ({ t1 with state := TexState.kQueuedForUpload, frameQueuedForUpload := frame }, true)
      else
        (if t1.linearImageDataLargeMips then { t1 with linearImageDataLargeMips := false } else t1,
         false)

/-- The orchestrator state touched by the modelled entry points: the pending
queue (record hashes, FIFO), the pending counter, the current frame id, and
the texture table. -/
structure TexManager where
  textureQueue : List Nat
  texturesPending : Nat
  currentFrameId : Nat
  textures : List (Nat × ManagedTexture)
deriving DecidableEq, Repr

/-- `RtxTextureManager::scheduleTextureUpload` (rtx_texturemanager.cpp:50-120)
at the orchestrator level; `none` models a `TextureRef` whose managed texture
pointer is null (the early return at lines 51-53). -/
def scheduleTextureUpload (cfg : RtxConfig) (out : UploadOutcome) (m : TexManager)
    (texture : Option ManagedTexture) (allowAsync : Bool) : TexManager × Option ManagedTexture :=
  match texture with
  | none => (m, none)
  | some t =>
    if (scheduleRecordCore cfg out allowAsync m.currentFrameId t).2 then
      ({ m with textureQueue := m.textureQueue ++ [t.hash],
                texturesPending := m.texturesPending + 1 },
       some (scheduleRecordCore cfg out allowAsync m.currentFrameId t).1)
    else (m, some (scheduleRecordCore cfg out allowAsync m.currentFrameId t).1)

/-- `RtxTextureManager::uploadTexture` (rtx_texturemanager.cpp:225-251). -/
def uploadTexture (cfg : RtxConfig) (out : UploadOutcome) (t : ManagedTexture) : ManagedTexture :=
  if t.state ≠ TexState.kQueuedForUpload then t
  else
    match loadTextureLowMips out.loadOk t with
    | .err tf => { tf with state := TexState.kFailed }
    | .ok t1 =>
      if cfg.rtxIoEnabled = false then
        match promoteHostToVid out.promoteOk t1 0 with
        | .err tf => { tf with state := TexState.kFailed }
        | .ok t2 => { t2 with linearImageDataLargeMips := false }
      else t1

/-- The per-item branch of `RtxTextureManager::threadFunc`
(rtx_texturemanager.cpp:211-215): with the drop-requests flag set the popped
record is marked failed and demoted; otherwise it is uploaded. -/
def workerProcess (cfg : RtxConfig) (out : UploadOutcome) (dropRequests : Bool)
    (t : ManagedTexture) : ManagedTexture :=
  if dropRequests then demote { t with state := TexState.kFailed }
  else uploadTexture cfg out t

/-- Lookup in the texture table (`m_textures.find(hash)`). -/
def findTexture (tbl : List (Nat × ManagedTexture)) (h : Nat) : Option ManagedTexture :=
  match tbl with
  | [] => none
  | (k, v) :: rest => if k = h then some v else findTexture rest h

/-- Asset identity and shape, as consumed by `preloadTexture`. -/
structure AssetInfo where
  hash : Nat
  mipLevels : Nat
  numLargeMips : Nat
deriving DecidableEq, Repr

/-- Modelled from the spec: `TextureUtils::createTexture` constructs a fresh
record for the asset, with no host or device data and state `kHostMem`. -/
def createTexture (a : AssetInfo) : ManagedTexture :=
  { state := TexState.kHostMem
    futureImageDescMipLevels := a.mipLevels
    numLargeMips := a.numLargeMips
    linearImageDataSmallMips := false
    linearImageDataLargeMips := false
    frameQueuedForUpload := 0
    canDemote := true
    completionSyncptComplete := false
    deviceMipBoundary := none
    hash := a.hash }

/-- Modelled from the spec: `TextureUtils::loadTexture(..., HighMips or All)`
loads the coarse ("small") mips -- and, with `forceLoad`, all mips -- into
host memory, or reports a structured error. -/
def loadTextureHighMips (ok forceLoad : Bool) (t : ManagedTexture) : TexResult :=
  if ok then
    .ok { t with linearImageDataSmallMips := true,
                 linearImageDataLargeMips := t.linearImageDataLargeMips || forceLoad }
  else .err t

/-- `RtxTextureManager::preloadTexture` (rtx_texturemanager.cpp:253-276);
the result `none` models the loader's `DxvkError` escaping the call (no table
insertion happens in that case). -/
def preloadTexture (loadOk : Bool) (m : TexManager) (asset : AssetInfo)
    (forceLoad : Bool) : Option (TexManager × ManagedTexture) :=
  match findTexture m.textures asset.hash with
  | some t => some (m, t)
  | none =>
    match loadTextureHighMips loadOk forceLoad (createTexture asset) with
    | .err _ => none
    | .ok texture =>
      let texture := { texture with canDemote := !forceLoad }
      some ({ m with textures := m.textures ++ [(asset.hash, texture)] }, texture)

/-- Unsigned 64-bit subtraction: `VkDeviceSize` arithmetic wraps modulo `2^64`
with no floor at zero, as performed at rtx_texturemanager.cpp:306. -/
def wrapSub64 (a b : Nat) : Nat :=
  (2 ^ 64 + a - b) % 2 ^ 64

/-- A device memory heap as reported by the adapter: locality flag and the
`memoryBudget` / `memoryAllocated` byte counts (uint64 quantities). -/
structure MemoryHeap where
  deviceLocal : Bool
  memoryBudget : Nat
  memoryAllocated : Nat
deriving DecidableEq, Repr

/-- One iteration of the heap loop at rtx_texturemanager.cpp:297-307: non
device-local heaps are skipped, and the running maximum is updated with the
heap's wrapped headroom `memSizeMib - memUsedMib` in MiB. -/
def heapStep (acc : Nat) (h : MemoryHeap) : Nat :=
  if h.deviceLocal then
    max (wrapSub64 (h.memoryBudget / 2 ^ 20) (h.memoryAllocated / 2 ^ 20)) acc
  else acc

/-- The device-local heap scan of `updateMipMapSkipLevel`
(rtx_texturemanager.cpp:296-307). -/
def availableVideoMemoryMib (heaps : List MemoryHeap) : Nat :=
  heaps.foldl heapStep 0

/-- Truncation of a uint64 value to a signed 32-bit `int` (the `int(...)` and
`static_cast<int>(...)` casts at rtx_texturemanager.cpp:314 and :324). -/
def toInt32 (n : Nat) : Int :=
  if n % 2 ^ 32 < 2 ^ 31 then ((n % 2 ^ 32 : Nat) : Int)
  else ((n % 2 ^ 32 : Nat) : Int) - 2 ^ 32

/-- Conversion of a C `int` value to uint64, as happens in the mixed comparison
`assetSizeMib > availableMemorySizeMib` at rtx_texturemanager.cpp:329. -/
def u64OfInt (i : Int) : Nat := (i % (2 ^ 64 : Int)).toNat

/-- The mip-skip loop at rtx_texturemanager.cpp:329-332, which runs at most
twice, written out iteration by iteration; `assetSizeMib` is a C `int`
compared against a `VkDeviceSize`, so it is converted to uint64 for each
comparison, and `/= 4` is C `int` division (truncation toward zero). -/
def skipLevelLoop (assetSizeMib : Int) (availableMemorySizeMib : Nat) : Nat :=
  if u64OfInt assetSizeMib > availableMemorySizeMib then
    if u64OfInt (Int.tdiv assetSizeMib 4) > availableMemorySizeMib then 2 else 1
  else 0

/-- `RtxTextureManager::updateMipMapSkipLevel` (rtx_texturemanager.cpp:292-335).
`pipelineResourcesPending` models `rtxContext && !rtxContext->...isResourceReady()`;
`availableSystemMemoryByte = some b` models a successful
`getAvailableSystemPhysicalMemory` query reporting `b` bytes. -/
def updateMipMapSkipLevel (cfg : RtxConfig) (heaps : List MemoryHeap)
    (pipelineResourcesPending : Bool) (availableSystemMemoryByte : Option Nat) : Nat :=
  let availableMemorySizeMib := availableVideoMemoryMib heaps
  let availableMemorySizeMib :=
    if pipelineResourcesPending then
      (max (toInt32 availableMemorySizeMib - 2 * 1024) 0).toNat
    else availableMemorySizeMib
  let availableMemorySizeMib :=
    match availableSystemMemoryByte with
    | some sysBytes =>
      min availableMemorySizeMib (max (toInt32 (sysBytes / 2 ^ 20) - 2 * 1024) 0).toNat
    | none => availableMemorySizeMib
  skipLevelLoop (cfg.assetEstimatedSizeGB * 1024) availableMemorySizeMib

/-- One call to an orchestrator operation, as seen by a single managed texture
record; the arguments carry the configuration snapshot and the external-call
outcomes for that particular call. -/
inductive TexOp
  | schedule (cfg : RtxConfig) (out : UploadOutcome) (allowAsync : Bool) (frame : Nat)
  | preload
  | upload (cfg : RtxConfig) (out : UploadOutcome)
  | workerDrop (cfg : RtxConfig) (out : UploadOutcome)
deriving DecidableEq, Repr

/-- Effect of one operation on a record.  `preload` is the identity on an
already-existing record (`preloadTexture` returns existing table entries
unchanged; see `preloadTexture_preserves_existing`). -/
def applyOp : TexOp → ManagedTexture → ManagedTexture
  | .schedule cfg out allowAsync frame, t => (scheduleRecordCore cfg out allowAsync frame t).1
  | .preload, t => t
  | .upload cfg out, t => workerProcess cfg out false t
  | .workerDrop cfg out, t => workerProcess cfg out true t

/-- The transition edges asserted by the specification: `HostMem|Failed →
QueuedForUpload → {VidMem, Failed}`, plus direct `HostMem → VidMem` (preload
path), plus staying put. -/
def specClaimedEdge (s s' : TexState) : Prop :=
  s' = s ∨
  ((s = TexState.kHostMem ∨ s = TexState.kFailed) ∧ s' = TexState.kQueuedForUpload) ∨
  (s = TexState.kQueuedForUpload ∧ (s' = TexState.kVidMem ∨ s' = TexState.kFailed)) ∨
  (s = TexState.kHostMem ∧ s' = TexState.kVidMem)

/-- The transition edges the code actually takes, per operation: scheduling may
take `HostMem|Failed` to `QueuedForUpload`, or -- through the synchronous
preload path -- directly to `VidMem` (full preload) or `Failed` (preload
failure), and completes `QueuedForUpload → VidMem` via the RTX IO syncpoint;
the worker upload resolves `QueuedForUpload` to `VidMem` or `Failed`; the
drop-requests branch forces any popped record to `Failed`. -/
def amendedEdge : TexOp → TexState → TexState → Prop
  | .schedule _ _ _ _, s, s' =>
    s' = s ∨
    ((s = TexState.kHostMem ∨ s = TexState.kFailed) ∧
      (s' = TexState.kQueuedForUpload ∨ s' = TexState.kVidMem ∨ s' = TexState.kFailed)) ∨
    (s = TexState.kQueuedForUpload ∧ s' = TexState.kVidMem)
  | .preload, s, s' => s' = s
  | .upload _ _, s, s' =>
    s' = s ∨ (s = TexState.kQueuedForUpload ∧ (s' = TexState.kVidMem ∨ s' = TexState.kFailed))
  | .workerDrop _ _, _, s' => s' = TexState.kFailed

/-- Every step of a call sequence follows `amendedEdge`. -/
def stepsOk (t : ManagedTexture) : List TexOp → Prop
  | [] => True
  | op :: ops => amendedEdge op t.state (applyOp op t).state ∧ stepsOk (applyOp op t) ops

/-! Helper lemmas about the external-call models and the schedule body. -/

lemma loadTextureLowMips_ok_fields (ok : Bool) (t t1 : ManagedTexture)
    (h : loadTextureLowMips ok t = .ok t1) :
    t1.state = t.state ∧ t1.frameQueuedForUpload = t.frameQueuedForUpload := by
  unfold loadTextureLowMips at h
  split at h
  · simp only [TexResult.ok.injEq] at h
    subst h
    exact ⟨rfl, rfl⟩
  · simp at h

lemma promoteHostToVid_ok_fields (ok : Bool) (t t1 : ManagedTexture) (b : Int)
    (h : promoteHostToVid ok t b = .ok t1) :
    (t1.state = t.state ∨ t1.state = TexState.kVidMem) ∧
      t1.frameQueuedForUpload = t.frameQueuedForUpload := by
  unfold promoteHostToVid at h
  split at h
  · simp only [TexResult.ok.injEq] at h
    subst h
    refine ⟨?_, rfl⟩
    by_cases hb : b = 0 <;> simp [hb]
  · simp at h

lemma promoteHostToVid_zero_ok (ok : Bool) (t t1 : ManagedTexture)
    (h : promoteHostToVid ok t 0 = .ok t1) : t1.state = TexState.kVidMem := by
  unfold promoteHostToVid at h
  split at h
  · simp only [TexResult.ok.injEq] at h
    subst h
    simp
  · simp at h

lemma preloadStep_ok_fields (out : UploadOutcome) (t t1 : ManagedTexture) (b : Int)
    (h : preloadStep out t b = .ok t1) :
    (t1.state = t.state ∨ t1.state = TexState.kVidMem) ∧
      t1.frameQueuedForUpload = t.frameQueuedForUpload := by
  unfold preloadStep at h
  split at h
  · rename_i tf heq
    simp at h
  · rename_i tmid heq
    split at heq
    · cases hload : loadTextureLowMips out.loadOk t with
      | ok tl =>
        rw [hload] at heq
        simp only [TexResult.ok.injEq] at heq
        subst heq
        obtain ⟨hs1, hf1⟩ := loadTextureLowMips_ok_fields _ _ _ hload
        obtain ⟨hs2, hf2⟩ := promoteHostToVid_ok_fields _ _ _ _ h
        refine ⟨?_, by rw [hf2, hf1]⟩
        rcases hs2 with h2 | h2
        · exact Or.inl (by rw [h2, hs1])
        · exact Or.inr h2
      | err tl =>
        rw [hload] at heq
        simp at heq
    · simp only [TexResult.ok.injEq] at heq
      subst heq
      exact promoteHostToVid_ok_fields _ _ _ _ h

lemma preloadStep_err_fields (out : UploadOutcome) (t tf : ManagedTexture) (b : Int)
    (h : preloadStep out t b = .err tf) :
    tf.state = t.state ∧ tf.frameQueuedForUpload = t.frameQueuedForUpload := by
  unfold preloadStep at h
  split at h
  · rename_i tmid heq
    simp only [TexResult.err.injEq] at h
    subst h
    split at heq
    · unfold loadTextureLowMips at heq
      split at heq
      · simp at heq
      · simp only [TexResult.err.injEq] at heq
        subst heq
        exact ⟨rfl, rfl⟩
    · simp at heq
  · rename_i tmid heq
    have hmid : tmid.state = t.state ∧ tmid.frameQueuedForUpload = t.frameQueuedForUpload := by
      split at heq
      · unfold loadTextureLowMips at heq
        split at heq
        · simp only [TexResult.ok.injEq] at heq
          subst heq
          exact ⟨rfl, rfl⟩
        · simp at heq
      · simp only [TexResult.ok.injEq] at heq
        subst heq
        exact ⟨rfl, rfl⟩
    unfold promoteHostToVid at h
    split at h
    · simp at h
    · simp only [TexResult.err.injEq] at h
      subst h
      exact hmid

lemma scheduleRecordCore_state (cfg : RtxConfig) (out : UploadOutcome) (allowAsync : Bool)
    (frame : Nat) (t : ManagedTexture) :
    (scheduleRecordCore cfg out allowAsync frame t).1.state = t.state ∨
    ((t.state = TexState.kHostMem ∨ t.state = TexState.kFailed) ∧
      ((scheduleRecordCore cfg out allowAsync frame t).1.state = TexState.kQueuedForUpload ∨
       (scheduleRecordCore cfg out allowAsync frame t).1.state = TexState.kVidMem ∨
       (scheduleRecordCore cfg out allowAsync frame t).1.state = TexState.kFailed)) ∨
    (t.state = TexState.kQueuedForUpload ∧
      (scheduleRecordCore cfg out allowAsync frame t).1.state = TexState.kVidMem) := by
  rcases hr : scheduleRecordCore cfg out allowAsync frame t with ⟨tr, enq⟩
  simp only [hr]
  unfold scheduleRecordCore at hr
  split at hr
  · injection hr with h1 h2
    subst h1
    exact Or.inl rfl
  · rename_i hnv
    split at hr
    · rename_i hq
      split at hr
      · injection hr with h1 h2
        subst h1
        exact Or.inr (Or.inr ⟨hq, rfl⟩)
      · injection hr with h1 h2
        subst h1
        exact Or.inl rfl
    · rename_i hq
      have hhf : t.state = TexState.kHostMem ∨ t.state = TexState.kFailed := by
        cases hs : t.state
        · exact Or.inl rfl
        · exact absurd hs hq
        · exact absurd ⟨hs, by simp [finalizePendingPromotion, hs]⟩ hnv
        · exact Or.inr rfl
      split at hr
      · rename_i tf heq
        injection hr with h1 h2
        subst h1
        exact Or.inr (Or.inl ⟨hhf, Or.inr (Or.inr rfl)⟩)
      · rename_i t1 heq
        have ht1 : t1.state = t.state ∨ t1.state = TexState.kVidMem := by
          split at heq
          · exact (preloadStep_ok_fields _ _ _ _ heq).1
          · simp only [TexResult.ok.injEq] at heq
            subst heq
            exact Or.inl rfl
        split at hr
        · injection hr with h1 h2
          subst h1
          exact Or.inr (Or.inl ⟨hhf, Or.inl rfl⟩)
        · injection hr with h1 h2
          subst h1
          have hres : (if t1.linearImageDataLargeMips then
              { t1 with linearImageDataLargeMips := false } else t1).state = t1.state := by
            split <;> rfl
          rw [hres]
          rcases ht1 with h2 | h2
          · exact Or.inl h2
          · exact Or.inr (Or.inl ⟨hhf, Or.inr (Or.inl h2)⟩)

lemma scheduleRecordCore_enqueued (cfg : RtxConfig) (out : UploadOutcome) (allowAsync : Bool)
    (frame : Nat) (t : ManagedTexture)
    (h : (scheduleRecordCore cfg out allowAsync frame t).2 = true) :
    (scheduleRecordCore cfg out allowAsync frame t).1.state = TexState.kQueuedForUpload := by
  rcases hr : scheduleRecordCore cfg out allowAsync frame t with ⟨tr, enq⟩
  rw [hr] at h
  simp only at h
  subst h
  simp only [hr]
  unfold scheduleRecordCore at hr
  split at hr
  · injection hr with h1 h2
    exact absurd h2.symm (by simp)
  · split at hr
    · split at hr
      · injection hr with h1 h2
        exact absurd h2.symm (by simp)
      · injection hr with h1 h2
        exact absurd h2.symm (by simp)
    · split at hr
      · injection hr with h1 h2
        exact absurd h2.symm (by simp)
      · split at hr
        · injection hr with h1 h2
          subst h1
          rfl
        · injection hr with h1 h2
          exact absurd h2.symm (by simp)

lemma uploadTexture_state (cfg : RtxConfig) (out : UploadOutcome) (t : ManagedTexture) :
    (uploadTexture cfg out t).state = t.state ∨
    (t.state = TexState.kQueuedForUpload ∧
      ((uploadTexture cfg out t).state = TexState.kVidMem ∨
       (uploadTexture cfg out t).state = TexState.kFailed)) := by
  generalize hr : uploadTexture cfg out t = u
  unfold uploadTexture at hr
  split at hr
  · subst hr
    exact Or.inl rfl
  · rename_i hq
    rw [not_not] at hq
    split at hr
    · rename_i tf heq
      subst hr
      exact Or.inr ⟨hq, Or.inr rfl⟩
    · rename_i t1 heq
      split at hr
      · split at hr
        · rename_i tf heq2
          subst hr
          exact Or.inr ⟨hq, Or.inr rfl⟩
        · rename_i t2 heq2
          subst hr
          have h2 := promoteHostToVid_zero_ok _ _ _ heq2
          exact Or.inr ⟨hq, Or.inl (by simp only []; rw [show ({ t2 with linearImageDataLargeMips := false } : ManagedTexture).state = t2.state from rfl, h2])⟩
      · subst hr
        exact Or.inl ((loadTextureLowMips_ok_fields _ _ _ heq).1)

lemma applyOp_edge (op : TexOp) (t : ManagedTexture) :
    amendedEdge op t.state (applyOp op t).state := by
  cases op with
  | schedule cfg out allowAsync frame =>
    exact scheduleRecordCore_state cfg out allowAsync frame t
  | preload => rfl
  | upload cfg out =>
    exact uploadTexture_state cfg out t
  | workerDrop cfg out =>
    show (workerProcess cfg out true t).state = TexState.kFailed
    have hw : workerProcess cfg out true t = demote { t with state := TexState.kFailed } := rfl
    rw [hw]
    unfold demote
    split
    · rename_i hbad
      simp at hbad
    · rfl

lemma findTexture_append_of_none {tbl : List (Nat × ManagedTexture)} {h : Nat}
    (hn : findTexture tbl h = none) (t : ManagedTexture) :
    findTexture (tbl ++ [(h, t)]) h = some t := by
  induction tbl with
  | nil => simp [findTexture]
  | cons p rest ih =>
    obtain ⟨k, v⟩ := p
    by_cases hk : k = h
    · rw [findTexture] at hn
      simp [hk] at hn
    · rw [List.cons_append, findTexture] at *
      rw [if_neg hk] at hn ⊢
      exact ih hn

lemma findTexture_append_of_some {tbl : List (Nat × ManagedTexture)} {h : Nat}
    {t : ManagedTexture} (hs : findTexture tbl h = some t)
    (l2 : List (Nat × ManagedTexture)) :
    findTexture (tbl ++ l2) h = some t := by
  induction tbl with
  | nil => simp [findTexture] at hs
  | cons p rest ih =>
    obtain ⟨k, v⟩ := p
    by_cases hk : k = h
    · rw [findTexture] at hs
      rw [List.cons_append, findTexture]
      rw [if_pos hk] at hs ⊢
      exact hs
    · rw [findTexture] at hs
      rw [List.cons_append, findTexture]
      rw [if_neg hk] at hs ⊢
      exact ih hs

/-- `preloadTexture` never modifies an existing table entry: a record bound to
some hash before the call is bound, unchanged, to that hash after it.  This is
what justifies treating `preloadTexture` as the identity on a record already
owned by the table (`TexOp.preload`). -/
lemma preloadTexture_preserves_existing (loadOk : Bool) (m m1 : TexManager)
    (asset : AssetInfo) (forceLoad : Bool) (t1 : ManagedTexture)
    (hres : preloadTexture loadOk m asset forceLoad = some (m1, t1))
    (h : Nat) (t : ManagedTexture) (hfind : findTexture m.textures h = some t) :
    findTexture m1.textures h = some t := by
  unfold preloadTexture at hres
  split at hres
  · simp only [Option.some.injEq, Prod.mk.injEq] at hres
    rw [← hres.1]
    exact hfind
  · split at hres
    · simp at hres
    · simp only [Option.some.injEq, Prod.mk.injEq] at hres
      rw [← hres.1]
      exact findTexture_append_of_some hfind _

lemma skipLevelLoop_le_two (a : Int) (m : Nat) : skipLevelLoop a m ≤ 2 := by
  unfold skipLevelLoop
  split
  · split <;> omega
  · omega

lemma skipLevelLoop_antitone (a : Int) (m1 m2 : Nat) (h : m1 ≤ m2) :
    skipLevelLoop a m2 ≤ skipLevelLoop a m1 := by
  unfold skipLevelLoop
  repeat' split
  all_goals omega

lemma heapStep_acc_le (acc : Nat) (h : MemoryHeap) : acc ≤ heapStep acc h := by
  unfold heapStep
  split <;> omega

lemma foldl_heapStep_acc_le (heaps : List MemoryHeap) (acc : Nat) :
    acc ≤ heaps.foldl heapStep acc := by
  induction heaps generalizing acc with
  | nil => exact Nat.le_refl acc
  | cons hd tl ih => exact Nat.le_trans (heapStep_acc_le acc hd) (ih (heapStep acc hd))

lemma foldl_heapStep_ge_candidate (heaps : List MemoryHeap) (h : MemoryHeap)
    (hmem : h ∈ heaps) (hloc : h.deviceLocal = true) (acc : Nat) :
    wrapSub64 (h.memoryBudget / 2 ^ 20) (h.memoryAllocated / 2 ^ 20) ≤
      heaps.foldl heapStep acc := by
  induction heaps generalizing acc with
  | nil => simp at hmem
  | cons hd tl ih =>
    rcases List.mem_cons.mp hmem with heq | hmem2
    · subst heq
      refine Nat.le_trans ?_ (foldl_heapStep_acc_le tl (heapStep acc h))
      unfold heapStep
      rw [if_pos hloc]
      omega
    · exact ih hmem2 (heapStep acc hd)

/-! Concrete fixtures used by scenario theorems, witnesses and counterexamples. -/

/-- External calls succeed. -/
def okOutcome : UploadOutcome := { loadOk := true, promoteOk := true }

/-- The loader succeeds but the promoter throws. -/
def promoteFails : UploadOutcome := { loadOk := true, promoteOk := false }

/-- Async upload enabled, preload count 3, RTX IO off, 4 GB estimated assets. -/
def baseCfg : RtxConfig :=
  { enableAsyncTextureUpload := true
    asyncTextureUploadPreloadMips := 3
    alwaysWaitForAsyncTextures := false
    assetEstimatedSizeGB := 4
    rtxIoEnabled := false }

/-- Same configuration with the async-upload enable flag off. -/
def noAsyncCfg : RtxConfig := { baseCfg with enableAsyncTextureUpload := false }

/-- A host-resident record with 4 mips, all of them "large". -/
def hostTex4 : ManagedTexture :=
  { state := TexState.kHostMem
    futureImageDescMipLevels := 4
    numLargeMips := 4
    linearImageDataSmallMips := true
    linearImageDataLargeMips := false
    frameQueuedForUpload := 0
    canDemote := true
    completionSyncptComplete := false
    deviceMipBoundary := none
    hash := 1 }

/-- A host-resident record with 10 mips, 2 of them "large". -/
def hostTex10 : ManagedTexture :=
  { hostTex4 with futureImageDescMipLevels := 10, numLargeMips := 2, hash := 42 }

/-- An orchestrator at frame 17 with empty queue and table. -/
def emptyMgr : TexManager :=
  { textureQueue := [], texturesPending := 0, currentFrameId := 17, textures := [] }

/-- `hostTex10` after scheduling: mips 7..9 device resident, queued at frame 17. -/
def queuedTex10 : ManagedTexture :=
  { hostTex10 with state := TexState.kQueuedForUpload, frameQueuedForUpload := 17,
                   deviceMipBoundary := some 7 }

/-- `hostTex4` as the promoter's error payload: the loader already populated
the large-mips host buffer before the promotion failed. -/
def failedTex4 : ManagedTexture := { hostTex4 with linearImageDataLargeMips := true }

/-- A device-resident record (stale queue entry). -/
def vidTex : ManagedTexture :=
  { hostTex4 with state := TexState.kVidMem, deviceMipBoundary := some 0 }

/-- A device-local heap with 1 GiB budget and 2 GiB already allocated. -/
def overHeap : MemoryHeap :=
  { deviceLocal := true, memoryBudget := 2 ^ 30, memoryAllocated := 2 ^ 31 }

/-- An asset with hash 5 and 8 mips. -/
def c6asset : AssetInfo := { hash := 5, mipLevels := 8, numLargeMips := 2 }

/-- The record `preloadTexture` builds for `c6asset` (coarse mips loaded). -/
def c6tex : ManagedTexture := { createTexture c6asset with linearImageDataSmallMips := true }

/-- The orchestrator after the first `preloadTexture` call for `c6asset`. -/
def c6mgr1 : TexManager := { emptyMgr with textures := [(5, c6tex)] }

/-! The ten claims. -/

/-- C1 (amended): over any sequence of orchestrator operations on a record, the
`state` field moves only along the per-operation edges of `amendedEdge`:
scheduling takes `kHostMem`/`kFailed` to `kQueuedForUpload` or -- via its
synchronous preload path -- directly to `kVidMem` (full preload) or `kFailed`
(preload failure), and resolves a queued record to `kVidMem` through the RTX IO
completion check; the worker upload only resolves `kQueuedForUpload` to
`kVidMem` or `kFailed` (so `kHostMem → kVidMem` never happens through the
queue); the drop-requests branch forces any popped record, even one already at
`kVidMem`, to `kFailed`; and no operation ever moves a record from `kVidMem` to
`kQueuedForUpload`.  Additionally, a record is only enqueued together with
`state = kQueuedForUpload`. -/
theorem scheduleUpload_state_machine :
    (∀ (t : ManagedTexture) (ops : List TexOp), stepsOk t ops) ∧
    (∀ (cfg : RtxConfig) (out : UploadOutcome) (allowAsync : Bool) (frame : Nat)
       (t : ManagedTexture),
      (scheduleRecordCore cfg out allowAsync frame t).2 = true →
      (scheduleRecordCore cfg out allowAsync frame t).1.state = TexState.kQueuedForUpload) := by
  constructor
  · intro t ops
    induction ops generalizing t with
    | nil => trivial
    | cons op ops ih => exact ⟨applyOp_edge op t, ih _⟩
  · intro cfg out allowAsync frame t h
    exact scheduleRecordCore_enqueued cfg out allowAsync frame t h

/-- C1 counterexample: from `kHostMem`, a failure of the synchronous preload
path of `scheduleTextureUpload` moves the record directly to `kFailed` -- an
edge outside the claimed set `HostMem|Failed → QueuedForUpload → {VidMem,
Failed}` plus `HostMem → VidMem`. -/
theorem scheduleUpload_state_machine_counterexample :
    (applyOp (TexOp.schedule baseCfg promoteFails false 0) hostTex4).state = TexState.kFailed ∧
    ¬ specClaimedEdge TexState.kHostMem TexState.kFailed := by
  constructor
  · decide
  · unfold specClaimedEdge
    decide

/-- C1 witness: a concrete scheduling step follows the amended edges, and a
concretely enqueued record indeed has state `kQueuedForUpload`. -/
theorem scheduleUpload_state_machine_witness :
    stepsOk hostTex10 [TexOp.schedule baseCfg okOutcome true 17] ∧
    (scheduleRecordCore baseCfg okOutcome true 17 hostTex10).1.state =
      TexState.kQueuedForUpload :=
  ⟨scheduleUpload_state_machine.1 hostTex10 [TexOp.schedule baseCfg okOutcome true 17],
   scheduleUpload_state_machine.2 baseCfg okOutcome true 17 hostTex10 (by decide)⟩

/-- C2: `updateMipMapSkipLevel` always returns a skip level in `[0, 2]`
(the lower bound is inherent in the return type), and, for a fixed asset
footprint, the level computed by its final loop from the computed available
memory is monotonically non-decreasing as that available memory decreases. -/
theorem updateMipMapSkipLevel_bounded_monotone :
    (∀ (cfg : RtxConfig) (heaps : List MemoryHeap) (pp : Bool) (sys : Option Nat),
      updateMipMapSkipLevel cfg heaps pp sys ≤ 2) ∧
    (∀ (assetSizeMib : Int) (m1 m2 : Nat), m1 ≤ m2 →
      skipLevelLoop assetSizeMib m2 ≤ skipLevelLoop assetSizeMib m1) := by
  constructor
  · intro cfg heaps pp sys
    unfold updateMipMapSkipLevel
    exact skipLevelLoop_le_two _ _
  · exact fun a m1 m2 h => skipLevelLoop_antitone a m1 m2 h

/-- C2 witness: concrete instances of the bound and of the antitonicity. -/
theorem updateMipMapSkipLevel_bounded_monotone_witness :
    updateMipMapSkipLevel baseCfg [overHeap] false none ≤ 2 ∧
    skipLevelLoop 4096 1024 ≤ skipLevelLoop 4096 100 :=
  ⟨updateMipMapSkipLevel_bounded_monotone.1 baseCfg [overHeap] false none,
   updateMipMapSkipLevel_bounded_monotone.2 4096 100 1024 (by decide)⟩

/-- C3: a `kHostMem` record with 10 mips, scheduled with `allowAsync = true`,
async upload enabled, preload count 3, RTX IO off: `preloadMips = 3`,
`largestMipToPreload = 7`, mips 7 through 9 are promoted synchronously
(`deviceMipBoundary = some 7`), and since `3 < 10` the record is pushed onto
the pending queue (which gains its hash), the pending counter is incremented,
`state` becomes `kQueuedForUpload` and `frameQueuedForUpload` is stamped with
the current frame id 17; a later successful worker upload ends with
`state = kVidMem`. -/
theorem schedule_then_upload_scenario :
    schedulePreloadMips baseCfg hostTex10 true = 3 ∧
    (hostTex10.futureImageDescMipLevels : Int) -
        scheduleEffectivePreloadMips baseCfg hostTex10 true = 7 ∧
    scheduleTextureUpload baseCfg okOutcome emptyMgr (some hostTex10) true =
      ({ emptyMgr with textureQueue := [42], texturesPending := 1 }, some queuedTex10) ∧
    (uploadTexture baseCfg okOutcome queuedTex10).state = TexState.kVidMem := by
  decide

/-- C4: if a record in `kHostMem` or `kFailed` takes the synchronous preload
path (`preloadMips ≠ 0`) and the loader or promoter reports a structured error
there, `scheduleTextureUpload` marks the record `kFailed` and returns without
enqueuing: the pending queue, the pending counter, the table (the whole
orchestrator state) and the record's `frameQueuedForUpload` are unchanged. -/
theorem schedule_preload_failure (cfg : RtxConfig) (out : UploadOutcome) (m : TexManager)
    (t tf : ManagedTexture) (allowAsync : Bool)
    (hstate : t.state = TexState.kHostMem ∨ t.state = TexState.kFailed)
    (hp : scheduleEffectivePreloadMips cfg t allowAsync ≠ 0)
    (herr : preloadStep out t ((t.futureImageDescMipLevels : Int) -
        scheduleEffectivePreloadMips cfg t allowAsync) = .err tf) :
    scheduleTextureUpload cfg out m (some t) allowAsync =
      (m, some { tf with state := TexState.kFailed }) ∧
    tf.frameQueuedForUpload = t.frameQueuedForUpload := by
  have hnv : ¬ (t.state = TexState.kVidMem ∧ finalizePendingPromotion t = true) := by
    rcases hstate with hs | hs <;> simp [hs]
  have hnq : ¬ t.state = TexState.kQueuedForUpload := by
    rcases hstate with hs | hs <;> simp [hs]
  have hcore : scheduleRecordCore cfg out allowAsync m.currentFrameId t =
      ({ tf with state := TexState.kFailed }, false) := by
    unfold scheduleRecordCore
    rw [if_neg hnv, if_neg hnq, if_pos hp, herr]
  refine ⟨?_, (preloadStep_err_fields _ _ _ _ herr).2⟩
  show (if (scheduleRecordCore cfg out allowAsync m.currentFrameId t).2 then
      ({ m with textureQueue := m.textureQueue ++ [t.hash],
                texturesPending := m.texturesPending + 1 },
       some (scheduleRecordCore cfg out allowAsync m.currentFrameId t).1)
    else (m, some (scheduleRecordCore cfg out allowAsync m.currentFrameId t).1)) =
      (m, some { tf with state := TexState.kFailed })
  rw [hcore]
  rfl

/-- C4 witness: a concrete promoter failure during the synchronous preload
leaves the orchestrator untouched and fails the record, with
`frameQueuedForUpload` unchanged. -/
theorem schedule_preload_failure_witness :
    scheduleTextureUpload baseCfg promoteFails emptyMgr (some hostTex4) false =
      (emptyMgr, some { failedTex4 with state := TexState.kFailed }) ∧
    failedTex4.frameQueuedForUpload = hostTex4.frameQueuedForUpload :=
  schedule_preload_failure baseCfg promoteFails emptyMgr hostTex4 failedTex4 false
    (by decide) (by decide) (by decide)

/-- C5 (amended): `preloadMips` always lies in `[0, mipLevels]`; it equals
`mipLevels` (all mips synchronous) whenever `allowAsync` is false or the
async-upload enable flag is off, and equals the configured async-preload count
clamped to `[0, mipLevels]` exactly when `allowAsync` and the enable flag are
both set. -/
theorem schedulePreloadMips_spec (cfg : RtxConfig) (t : ManagedTexture) (allowAsync : Bool) :
    0 ≤ schedulePreloadMips cfg t allowAsync ∧
    schedulePreloadMips cfg t allowAsync ≤ (t.futureImageDescMipLevels : Int) ∧
    (allowAsync = false →
      schedulePreloadMips cfg t allowAsync = (t.futureImageDescMipLevels : Int)) ∧
    (cfg.enableAsyncTextureUpload = false →
      schedulePreloadMips cfg t allowAsync = (t.futureImageDescMipLevels : Int)) ∧
    (allowAsync = true → cfg.enableAsyncTextureUpload = true →
      schedulePreloadMips cfg t allowAsync =
        clamp cfg.asyncTextureUploadPreloadMips 0 (t.futureImageDescMipLevels : Int)) := by
  refine ⟨?_, ?_, ?_, ?_, ?_⟩
  · unfold schedulePreloadMips calcPreloadMips clamp
    repeat' split
    all_goals omega
  · unfold schedulePreloadMips calcPreloadMips clamp
    repeat' split
    all_goals omega
  · intro ha
    subst ha
    rfl
  · intro hcfg
    unfold schedulePreloadMips calcPreloadMips
    rw [hcfg]
    split <;> rfl
  · intro ha hcfg
    subst ha
    unfold schedulePreloadMips calcPreloadMips
    rw [hcfg]
    rfl

/-- C5 counterexample: with the async-upload enable flag off but
`allowAsync = true`, `preloadMips` is the full mip count (10), not the
configured count clamped to `[0, mipLevels]` (3). -/
theorem schedulePreloadMips_counterexample :
    schedulePreloadMips noAsyncCfg hostTex10 true = 10 ∧
    clamp noAsyncCfg.asyncTextureUploadPreloadMips 0
        (hostTex10.futureImageDescMipLevels : Int) = 3 ∧
    schedulePreloadMips noAsyncCfg hostTex10 true ≠
      clamp noAsyncCfg.asyncTextureUploadPreloadMips 0
        (hostTex10.futureImageDescMipLevels : Int) := by
  decide

/-- C5 witness: with both flags set, the concretely computed count is the
clamped configured count. -/
theorem schedulePreloadMips_spec_witness :
    schedulePreloadMips baseCfg hostTex10 true =
      clamp baseCfg.asyncTextureUploadPreloadMips 0
        (hostTex10.futureImageDescMipLevels : Int) :=
  (schedulePreloadMips_spec baseCfg hostTex10 true).2.2.2.2 rfl rfl

/-- C6: once `preloadTexture` has produced a record for a content hash, any
further `preloadTexture` call with the same hash (any loader outcome, any
`forceLoad`) finds the existing table entry and returns the identical record
with the whole orchestrator unchanged -- it performs no load and inserts
nothing. -/
theorem preloadTexture_idempotent (loadOk : Bool) (m m1 : TexManager) (asset : AssetInfo)
    (forceLoad : Bool) (t1 : ManagedTexture)
    (hres : preloadTexture loadOk m asset forceLoad = some (m1, t1)) :
    ∀ (loadOk2 forceLoad2 : Bool) (asset2 : AssetInfo), asset2.hash = asset.hash →
      preloadTexture loadOk2 m1 asset2 forceLoad2 = some (m1, t1) := by
  intro lo2 f2 a2 hh
  have hfind : findTexture m1.textures a2.hash = some t1 := by
    rw [hh]
    unfold preloadTexture at hres
    split at hres
    · rename_i t ht
      simp only [Option.some.injEq, Prod.mk.injEq] at hres
      rw [← hres.1, ← hres.2]
      exact ht
    · rename_i hn
      split at hres
      · simp at hres
      · simp only [Option.some.injEq, Prod.mk.injEq] at hres
        rw [← hres.1, ← hres.2]
        exact findTexture_append_of_none hn _
  show (match findTexture m1.textures a2.hash with
    | some t => some (m1, t)
    | none =>
      match loadTextureHighMips lo2 f2 (createTexture a2) with
      | .err _ => none
      | .ok texture =>
        let texture := { texture with canDemote := !f2 }
        some ({ m1 with textures := m1.textures ++ [(a2.hash, texture)] }, texture)) =
    some (m1, t1)
  rw [hfind]

/-- C6 witness: a second `preloadTexture` with the same hash -- here even with
a failing loader and a different `forceLoad` -- returns the identical record
and leaves the orchestrator unchanged. -/
theorem preloadTexture_idempotent_witness :
    preloadTexture false c6mgr1 c6asset true = some (c6mgr1, c6tex) :=
  preloadTexture_idempotent true emptyMgr c6mgr1 c6asset false c6tex (by decide)
    false true c6asset rfl

/-- C7: the worker's `uploadTexture` returns immediately and leaves every field
of the record unchanged when its state is not `kQueuedForUpload`: stale queue
entries (for example, fast-tracked to `kVidMem`) are skipped with no load and
no promotion. -/
theorem uploadTexture_stale_noop (cfg : RtxConfig) (out : UploadOutcome)
    (t : ManagedTexture) (h : t.state ≠ TexState.kQueuedForUpload) :
    uploadTexture cfg out t = t := by
  unfold uploadTexture
  rw [if_pos h]

/-- C7 witness: a record already in `kVidMem` is returned untouched. -/
theorem uploadTexture_stale_noop_witness :
    uploadTexture baseCfg okOutcome vidTex = vidTex :=
  uploadTexture_stale_noop baseCfg okOutcome vidTex (by decide)

/-- C8: when the drop-requests flag is set, the worker's per-item branch marks
the popped record `kFailed` and demotes it (device residency cleared), and the
result does not depend on the loader/promoter outcomes -- no load or promotion
is attempted for that record. -/
theorem workerDrop_marks_failed (cfg : RtxConfig) (out out2 : UploadOutcome)
    (t : ManagedTexture) :
    (workerProcess cfg out true t).state = TexState.kFailed ∧
    (workerProcess cfg out true t).deviceMipBoundary = none ∧
    workerProcess cfg out true t = workerProcess cfg out2 true t := by
  refine ⟨?_, ?_, rfl⟩
  · have hw : workerProcess cfg out true t = demote { t with state := TexState.kFailed } := rfl
    rw [hw]
    unfold demote
    split
    · rename_i hbad
      simp at hbad
    · rfl
  · have hw : workerProcess cfg out true t = demote { t with state := TexState.kFailed } := rfl
    rw [hw]
    unfold demote
    split <;> rfl

/-- C9 (amended): per-heap headroom is the unsigned 64-bit difference
`budgetMiB - allocatedMiB` with no floor at zero, so a device-local heap whose
allocated MiB exceed its budget MiB contributes a wrapped, enormous candidate
(at least `2^64 - 2^44` MiB) which wins the running `max`; when the pipeline
reserve does not apply and the system-memory query fails (so nothing caps the
wrapped value), the function returns skip level 0 -- instead of treating the
heap as exhausted -- for any configured footprint in `[0, 2^40)` GB. -/
theorem updateMipMapSkipLevel_wrap (heaps : List MemoryHeap) (h : MemoryHeap)
    (hmem : h ∈ heaps) (hloc : h.deviceLocal = true)
    (halloc : h.memoryAllocated < 2 ^ 64)
    (hover : h.memoryBudget / 2 ^ 20 < h.memoryAllocated / 2 ^ 20)
    (cfg : RtxConfig) (hgb0 : 0 ≤ cfg.assetEstimatedSizeGB)
    (hgb1 : cfg.assetEstimatedSizeGB < 2 ^ 40) :
    2 ^ 64 - 2 ^ 44 ≤ availableVideoMemoryMib heaps ∧
    updateMipMapSkipLevel cfg heaps false none = 0 := by
  have hcand : 2 ^ 64 - 2 ^ 44 ≤
      wrapSub64 (h.memoryBudget / 2 ^ 20) (h.memoryAllocated / 2 ^ 20) := by
    unfold wrapSub64
    omega
  have havail : 2 ^ 64 - 2 ^ 44 ≤ availableVideoMemoryMib heaps :=
    Nat.le_trans hcand (foldl_heapStep_ge_candidate heaps h hmem hloc 0)
  refine ⟨havail, ?_⟩
  have hsmall : u64OfInt (cfg.assetEstimatedSizeGB * 1024) < 2 ^ 51 := by
    unfold u64OfInt
    omega
  have hnot : ¬ (u64OfInt (cfg.assetEstimatedSizeGB * 1024) > availableVideoMemoryMib heaps) := by
    omega
  show skipLevelLoop (cfg.assetEstimatedSizeGB * 1024) (availableVideoMemoryMib heaps) = 0
  unfold skipLevelLoop
  rw [if_neg hnot]

/-- C9 counterexample: with the same over-budget device-local heap but a
successful system-memory query reporting 3 GiB available, the system-side cap
replaces the wrapped value and the function returns skip level 1, not 0 -- the
claim's unconditional "returns skip level 0" fails. -/
theorem updateMipMapSkipLevel_wrap_counterexample :
    overHeap.deviceLocal = true ∧
    overHeap.memoryBudget < overHeap.memoryAllocated ∧
    updateMipMapSkipLevel baseCfg [overHeap] false (some (3 * 2 ^ 30)) = 1 := by
  decide

/-- C9 witness: one over-budget device-local heap, no pipeline reserve, failed
system query: the wrapped headroom is enormous and the returned skip level
is 0. -/
theorem updateMipMapSkipLevel_wrap_witness :
    2 ^ 64 - 2 ^ 44 ≤ availableVideoMemoryMib [overHeap] ∧
    updateMipMapSkipLevel baseCfg [overHeap] false none = 0 :=
  updateMipMapSkipLevel_wrap [overHeap] overHeap (by simp) (by decide) (by decide)
    (by decide) baseCfg (by decide) (by decide)

/-- C10: scheduling through a `TextureRef` whose managed-texture pointer is
null returns immediately with no effect: the pending queue, the pending
counter, the texture table (the whole orchestrator state) and the absent
record are unchanged, for any `allowAsync`. -/
theorem scheduleTextureUpload_null (cfg : RtxConfig) (out : UploadOutcome)
    (m : TexManager) (allowAsync : Bool) :
    scheduleTextureUpload cfg out m none allowAsync = (m, none) := rfl
